import Mathlib

/-!
Verification development for the hubspot-schema-inspector CLI.

The embedding below translates the core of the repository — the schema
directory lookup (`findSchemaByNameOrLabel`), the portal-scope
classification rule (`isPortalScoped`), the object-existence probe
(`objectExists`), and the association-verification pipeline
(`verifyAssociationsCommand` with its JSON verdict, warning synthesis
from `formatVerifyOutput`, and exit-code mapping) — into pure Lean
functions.  Network interaction is modelled by a `Gateway` record whose
fields hold the responses the remote API would return; a thrown
JavaScript error is an `Except.error`.  JavaScript string operations
(`toLowerCase`, `startsWith`, `includes`) are modelled on the
underlying character lists so that all definitions evaluate inside the
kernel.  Fields of the source records that none of the verified
operations read (timestamps, properties, searchable properties, ...)
are omitted from the Lean structures.
-/

/-- Models JavaScript `String.prototype.toLowerCase` (ASCII-relevant part). -/
def lowerStr (s : String) : String := ⟨s.data.map Char.toLower⟩

/-- `isPrefixList p s` is true when `p` is a prefix of `s` (character lists). -/
def isPrefixList : List Char → List Char → Bool
  | [], _ => true
  | _ :: _, [] => false
  | a :: as, b :: bs => a == b && isPrefixList as bs

/-- `hasSubstr s t` is true when `t` occurs as a contiguous substring of `s`. -/
def hasSubstr (s t : List Char) : Bool :=
  match s with
  | [] => isPrefixList t []
  | c :: rest => isPrefixList t (c :: rest) || hasSubstr rest t

/-- Models JavaScript `s.includes(t)`. -/
def includesStr (s t : String) : Bool := hasSubstr s.data t.data

/-- Models JavaScript `s.startsWith(p)`. -/
def startsWithStr (s p : String) : Bool := isPrefixList p.data s.data

/-- Display labels of a schema (`labels` in src/unnamed/part_001). -/
structure Labels where
  singular : String
  plural : String
deriving DecidableEq, Repr

/-- One CRM object-type schema (`HubSpotSchema` in src/unnamed/part_001);
only the fields read by the verified operations are carried. -/
structure HubSpotSchema where
  id : String
  name : String
  labels : Labels
  metaType : String
  objectTypeId : Option String
  fullyQualifiedName : Option String
deriving DecidableEq, Repr

/-- One association type (`AssociationDefinition` in src/unnamed/part_001). -/
structure AssociationDefinition where
  fromObjectType : String
  toObjectType : String
  associationCategory : String
  associationTypeId : Nat
  name : Option String
deriving DecidableEq, Repr

/-- Resolution source of an existence check (`verifiedVia`). -/
inductive VerifiedVia where
  | schemas
  | objects
deriving DecidableEq, Repr

/-- `ObjectExistsResult` in src/unnamed/part_001.  The TypeScript field
`exists` is a reserved token in Lean, hence `existsFlag`. -/
structure ObjectExistsResult where
  existsFlag : Bool
  verifiedVia : VerifiedVia
  error : Option String
deriving DecidableEq, Repr

/-- Outcome of one HTTP request of the objects probe: either a response
with a status code, or a transport failure with no response at all
(axios rejects with `error.response` undefined). -/
inductive ProbeOutcome where
  | status (code : Nat)
  | networkError (msg : String)
deriving DecidableEq, Repr

/-- The remote API, as the data it would answer with.  `schemasResponse`
is the result of `GET /crm/v3/schemas` (`Except.error` = thrown
`HubSpot API Error`), `probeResponse` the HTTP outcome of
`GET /crm/v3/objects/{name}?limit=1`, and `assocResponse` the result of
`GET /crm/v4/associations/{from}/{to}/types` (`Except.error` carries the
thrown error's message). -/
structure Gateway where
  schemasResponse : Except String (List HubSpotSchema)
  probeResponse : String → ProbeOutcome
  assocResponse : String → String → Except String (List AssociationDefinition)

/-- `HubSpotClient.objectExists` (src/src/hubspot-client.ts lines 31-62).
axios resolves for status codes below 400 and rejects otherwise, so the
`try` branch sees the sub-400 codes and the `catch` branch the rest. -/
def objectExists : ProbeOutcome → Except String ObjectExistsResult
  | .status code =>
    if code < 400 then
      if code == 200 then
        .ok { existsFlag := true, verifiedVia := .objects, error := none }
      else
        .ok { existsFlag := false, verifiedVia := .objects, error := none }
    else if code == 404 then
      .ok { existsFlag := false, verifiedVia := .objects, error := none }
    else if code == 403 then
      .ok { existsFlag := false, verifiedVia := .objects,
            error := some "Insufficient permissions (403)" }
    else
      .ok { existsFlag := false, verifiedVia := .objects,
            error := some s!"API Error ({code})" }
  | .networkError msg => .error msg

/-- `findSchemaByNameOrLabel` (src/src/hubspot-client.ts lines 533-552):
exact name match, then label match, then partial (substring) name
match, each case-insensitive, first match wins. -/
def findSchemaByNameOrLabel (schemas : List HubSpotSchema) (nameOrLabel : String) :
    Option HubSpotSchema :=
  let lower := lowerStr nameOrLabel
  match schemas.find? (fun s => lowerStr s.name == lower) with
  | some schema => some schema
  | none =>
    match schemas.find? (fun s =>
        lowerStr s.labels.singular == lower || lowerStr s.labels.plural == lower) with
    | some schema => some schema
    | none => schemas.find? (fun s => includesStr (lowerStr s.name) lower)

/-- The fixed allow-list of standard object names (src/src/utils.ts lines 26-49). -/
def standardObjects : List String :=
  ["contacts", "companies", "deals", "tickets", "products", "line_items",
   "quotes", "calls", "emails", "meetings", "notes", "tasks",
   "communications", "postal_mail", "marketing_events",
   "feedback_submissions", "goals", "invoices", "subscriptions",
   "taxes", "discounts", "fees"]

/-- `isPortalScoped` (src/src/utils.ts lines 7-52).  The JavaScript
guards `schema.objectTypeId && ...` and `schema.fullyQualifiedName && ...`
short-circuit on an absent field, modelled by the `Option` match. -/
def isPortalScoped (schema : HubSpotSchema) : Bool :=
  if schema.metaType == "PORTAL_SPECIFIC" then true
  else if (match schema.objectTypeId with
           | some o => startsWithStr o "2-"
           | none => false) then true
  else if (match schema.fullyQualifiedName with
           | some f => startsWithStr f "p"
           | none => false) then true
  else !(standardObjects.contains schema.name)

/-- Result of `HubSpotClient.verifyAssociationPath`
(src/src/hubspot-client.ts lines 132-160). -/
structure VerifyPathResult where
  valid : Bool
  path : String
  associationTypes : Option (List AssociationDefinition)
  error : Option String
deriving DecidableEq, Repr

/-- `HubSpotClient.verifyAssociationPath`: the association-types query;
a throw from `getAssociationTypes` is caught and becomes
`valid = false` with the error message attached. -/
def verifyAssociationPath (gw : Gateway) (fromObjectType toObjectType : String) :
    VerifyPathResult :=
  let path := s!"/crm/v4/associations/{fromObjectType}/{toObjectType}/types"
  match gw.assocResponse fromObjectType toObjectType with
  | .ok results =>
    { valid := true, path := path, associationTypes := some results, error := none }
  | .error msg =>
    { valid := false, path := path, associationTypes := none, error := some msg }

/-- Per-object part of the structured (JSON) verdict
(src/src/hubspot-client.ts lines 459-472). -/
structure ObjectVerdict where
  input : String
  internalName : String
  existsFlag : Bool
  verifiedVia : VerifiedVia
  isPortalScoped : Bool
deriving DecidableEq, Repr

/-- Association part of the structured (JSON) verdict
(src/src/hubspot-client.ts lines 473-477). -/
structure AssociationVerdict where
  defined : Bool
  cardinality : Option String
  types : List AssociationDefinition
deriving DecidableEq, Repr

/-- The structured (JSON) verdict printed by `verifyAssociationsCommand`
(src/src/hubspot-client.ts lines 458-483). -/
structure VerifyOutput where
  objectA : ObjectVerdict
  objectB : ObjectVerdict
  association : AssociationVerdict
  recommendedApiPath : Option String
  valid : Bool
  writeOperationsPerformed : Bool
deriving DecidableEq, Repr

/-- The record handed to `formatVerifyOutput`
(src/unnamed/part_000 lines 281-298). -/
structure VerifyOutputData where
  objectA : String
  objectB : String
  internalNameA : String
  internalNameB : String
  objectAExists : Bool
  objectBExists : Bool
  verifiedViaA : VerifiedVia
  verifiedViaB : VerifiedVia
  associationExists : Bool
  cardinality : String
  isAPortalScoped : Bool
  isBPortalScoped : Bool
  labelDiffersA : Bool
  labelDiffersB : Bool
  associationTypes : List AssociationDefinition
deriving DecidableEq, Repr

/-- The warnings the human-readable form prints: `formatVerifyOutput`
(src/unnamed/part_000 lines 334-358) synthesizes them only inside the
branch where both objects exist and the association exists. -/
def verifyWarnings (d : VerifyOutputData) : List String :=
  if d.objectAExists && d.objectBExists && d.associationExists then
    (if d.labelDiffersA then
       [s!"UI label \"{d.objectA}\" differs from API object name \"{d.internalNameA}\""]
     else [])
    ++ (if d.labelDiffersB then
       [s!"UI label \"{d.objectB}\" differs from API object name \"{d.internalNameB}\""]
     else [])
    ++ (if d.isAPortalScoped || d.isBPortalScoped then
       ["Single PUT association endpoint may return 500 in sandbox"]
     else [])
  else []

/-- Everything one run of `verifyAssociationsCommand` computes: the
structured verdict, the exit code chosen at the end of the run, the
intermediate probe / association-query results (local variables in the
source), whether each gateway call was issued, the label-mismatch
flags, and the warnings the human-readable form would print. -/
structure VerifyRun where
  output : VerifyOutput
  exitCode : Nat
  assocQueried : Bool
  probedA : Bool
  probedB : Bool
  probeResultA : Option ObjectExistsResult
  probeResultB : Option ObjectExistsResult
  associationResult : Option VerifyPathResult
  labelDiffersA : Bool
  labelDiffersB : Bool
  humanWarnings : List String
deriving DecidableEq, Repr

/-- `EXIT_CODES` (src/src/hubspot-client.ts lines 168-173). -/
structure ExitCodeTable where
  SUCCESS : Nat
  ASSOCIATION_INVALID : Nat
  OBJECT_NOT_FOUND : Nat
  API_ERROR : Nat

/-- `EXIT_CODES` values as in the source. -/
def EXIT_CODES : ExitCodeTable :=
  { SUCCESS := 0, ASSOCIATION_INVALID := 1, OBJECT_NOT_FOUND := 2, API_ERROR := 3 }

/-- Existence resolution for one identifier, as inlined twice in
`verifyAssociationsCommand` (src/src/hubspot-client.ts lines 404-425):
directory lookup first; only when it misses is the objects probe
issued.  Returns the found schema, the existence flag, the resolution
source, and the raw probe result when a probe happened; a probe that
throws propagates as `Except.error`. -/
def resolveObject (gw : Gateway) (schemas : List HubSpotSchema) (input : String) :
    Except String (Option HubSpotSchema × Bool × VerifiedVia × Option ObjectExistsResult) :=
  match findSchemaByNameOrLabel schemas input with
  | some s => .ok (some s, true, VerifiedVia.schemas, none)
  | none =>
    match objectExists (gw.probeResponse input) with
    | .ok probeResult => .ok (none, probeResult.existsFlag, VerifiedVia.objects, some probeResult)
    | .error msg => .error msg

/-- The pure tail of `verifyAssociationsCommand` after both objects are
resolved (src/src/hubspot-client.ts lines 427-519): internal-name
fallback, the gated association check, cardinality extraction, the
portal-scope and label-mismatch flags, the JSON verdict, the warning
synthesis of the human-readable form, and the exit-code choice. -/
def buildVerifyRun (gw : Gateway) (objectA objectB : String)
    (schemaA schemaB : Option HubSpotSchema)
    (objectAExists objectBExists : Bool)
    (verifiedViaA verifiedViaB : VerifiedVia)
    (probeResultA probeResultB : Option ObjectExistsResult) : VerifyRun :=
  -- const internalNameA = schemaA?.name || objectA  (empty string is falsy)
  let internalNameA := match schemaA with
    | some s => if s.name == "" then objectA else s.name
    | none => objectA
  let internalNameB := match schemaB with
    | some s => if s.name == "" then objectB else s.name
    | none => objectB
  -- Step 4: only check the association after BOTH objects exist
  let assocQueried := objectAExists && objectBExists
  let associationResult :=
    if assocQueried then some (verifyAssociationPath gw internalNameA internalNameB)
    else none
  let associationExists := match associationResult with
    | some r => r.valid && (match r.associationTypes with
        | some ts => decide (ts.length > 0)
        | none => false)
    | none => false
  let cardinality :=
    if associationExists then
      match associationResult with
      | some r => match r.associationTypes with
        | some ts => match ts.head? with
          | some firstAssoc => (match firstAssoc.name with
            | some n => n
            | none => "")
          | none => ""
        | none => ""
      | none => ""
    else ""
  let isAPortalScoped := match schemaA with
    | some s => isPortalScoped s
    | none => false
  let isBPortalScoped := match schemaB with
    | some s => isPortalScoped s
    | none => false
  -- labelDiffersA = schemaA && objectA !== schemaA.name
  --                 && objectA === schemaA.labels.singular.toLowerCase()
  let labelDiffersA := match schemaA with
    | some s => objectA != s.name && objectA == lowerStr s.labels.singular
    | none => false
  let labelDiffersB := match schemaB with
    | some s => objectB != s.name && objectB == lowerStr s.labels.singular
    | none => false
  let output : VerifyOutput :=
    { objectA := { input := objectA, internalName := internalNameA,
                   existsFlag := objectAExists, verifiedVia := verifiedViaA,
                   isPortalScoped := isAPortalScoped },
      objectB := { input := objectB, internalName := internalNameB,
                   existsFlag := objectBExists, verifiedVia := verifiedViaB,
                   isPortalScoped := isBPortalScoped },
      association :=
        { defined := associationExists,
          -- cardinality: cardinality || null
          cardinality := if cardinality == "" then none else some cardinality,
          types := match associationResult with
            | some r => match r.associationTypes with
              | some ts => ts
              | none => []
            | none => [] },
      recommendedApiPath :=
        if associationExists then
          some s!"POST /crm/v4/associations/{internalNameA}/{internalNameB}/batch/create"
        else none,
      valid := objectAExists && objectBExists && associationExists,
      writeOperationsPerformed := false }
  let exitCode :=
    if !objectAExists || !objectBExists then EXIT_CODES.OBJECT_NOT_FOUND
    else if !associationExists then EXIT_CODES.ASSOCIATION_INVALID
    else EXIT_CODES.SUCCESS
  let humanWarnings := verifyWarnings
    { objectA := objectA, objectB := objectB,
      internalNameA := internalNameA, internalNameB := internalNameB,
      objectAExists := objectAExists, objectBExists := objectBExists,
      verifiedViaA := verifiedViaA, verifiedViaB := verifiedViaB,
      associationExists := associationExists, cardinality := cardinality,
      isAPortalScoped := isAPortalScoped, isBPortalScoped := isBPortalScoped,
      labelDiffersA := labelDiffersA, labelDiffersB := labelDiffersB,
      associationTypes := match associationResult with
        | some r => match r.associationTypes with
          | some ts => ts
          | none => []
        | none => [] }
  { output := output, exitCode := exitCode, assocQueried := assocQueried,
    probedA := probeResultA.isSome, probedB := probeResultB.isSome,
    probeResultA := probeResultA, probeResultB := probeResultB,
    associationResult := associationResult,
    labelDiffersA := labelDiffersA, labelDiffersB := labelDiffersB,
    humanWarnings := humanWarnings }

/-- `verifyAssociationsCommand` (src/src/hubspot-client.ts lines 384-528):
fetch the directory, resolve A, resolve B, then the pure tail.  A throw
anywhere lands in the `catch` branch, modelled by `Except.error`. -/
def verifyAssociationsCommand (gw : Gateway) (objectA objectB : String) :
    Except String VerifyRun :=
  match gw.schemasResponse with
  | .error msg => .error msg
  | .ok schemas =>
    match resolveObject gw schemas objectA with
    | .error msg => .error msg
    | .ok (schemaA, objectAExists, verifiedViaA, probeResultA) =>
      match resolveObject gw schemas objectB with
      | .error msg => .error msg
      | .ok (schemaB, objectBExists, verifiedViaB, probeResultB) =>
        .ok (buildVerifyRun gw objectA objectB schemaA schemaB
              objectAExists objectBExists verifiedViaA verifiedViaB
              probeResultA probeResultB)

/-- Exit code of a whole run: the `catch` branch exits with
`EXIT_CODES.API_ERROR`; a completed run exits with the code chosen at
src/src/hubspot-client.ts lines 486-491 / 514-519 (0 when the function
returns normally). -/
def exitCodeOf : Except String VerifyRun → Nat
  | .error _ => EXIT_CODES.API_ERROR
  | .ok r => r.exitCode

/-- The structured verdict of a run, when the run completed. -/
def runOutput (r : Except String VerifyRun) : Option VerifyOutput :=
  r.toOption.map (fun run => run.output)

/-- The human-readable warnings of a run, when the run completed. -/
def runWarnings (r : Except String VerifyRun) : Option (List String) :=
  r.toOption.map (fun run => run.humanWarnings)

/-- Lookup algorithm as worded in the specification (§4.1): first
match wins, in the fixed order exact-name, exact-label, substring-name,
each comparison case-insensitive. -/
def lookupSpec (schemas : List HubSpotSchema) (input : String) : Option HubSpotSchema :=
  (schemas.find? (fun s => lowerStr s.name == lowerStr input)) <|>
  (schemas.find? (fun s =>
      lowerStr s.labels.singular == lowerStr input ||
      lowerStr s.labels.plural == lowerStr input)) <|>
  (schemas.find? (fun s => includesStr (lowerStr s.name) (lowerStr input)))

/-- Classification rule as worded in the specification (§4.2):
first true wins, rule 4 consults the fixed allow-list. -/
def isPortalScopedSpec (schema : HubSpotSchema) : Bool :=
  if schema.metaType == "PORTAL_SPECIFIC" then true
  else if (schema.objectTypeId.map (fun o => startsWithStr o "2-")).getD false then true
  else if (schema.fullyQualifiedName.map (fun f => startsWithStr f "p")).getD false then true
  else !(["contacts", "companies", "deals", "tickets", "products", "line_items",
          "quotes", "calls", "emails", "meetings", "notes", "tasks",
          "communications", "postal_mail", "marketing_events",
          "feedback_submissions", "goals", "invoices", "subscriptions",
          "taxes", "discounts", "fees"].contains schema.name)

/-- The condition under which the source sets the label-mismatch flag
for one side: a directory schema was found, the input differs from its
internal name, and the input equals the lowercased singular label
(the source lowercases only the label, not the input). -/
def labelDiffersSpec (schemas : List HubSpotSchema) (input : String) : Bool :=
  match findSchemaByNameOrLabel schemas input with
  | some s => input != s.name && input == lowerStr s.labels.singular
  | none => false

/-! Concrete fixtures used by the witnesses and counterexamples. -/

/-- A standard `contacts` schema. -/
def contactsS : HubSpotSchema :=
  { id := "0-1", name := "contacts",
    labels := { singular := "Contact", plural := "Contacts" },
    metaType := "STANDARD", objectTypeId := some "0-1", fullyQualifiedName := none }

/-- A standard `companies` schema. -/
def companiesS : HubSpotSchema :=
  { id := "0-2", name := "companies",
    labels := { singular := "Company", plural := "Companies" },
    metaType := "STANDARD", objectTypeId := some "0-2", fullyQualifiedName := none }

/-- A standard `deals` schema. -/
def dealsS : HubSpotSchema :=
  { id := "0-3", name := "deals",
    labels := { singular := "Deal", plural := "Deals" },
    metaType := "STANDARD", objectTypeId := some "0-3", fullyQualifiedName := none }

/-- Like `dealsS` but with different display labels. -/
def dealsXS : HubSpotSchema :=
  { id := "0-3", name := "deals",
    labels := { singular := "Dealx", plural := "Dealsx" },
    metaType := "STANDARD", objectTypeId := some "0-3", fullyQualifiedName := none }

/-- A custom object whose name contains "deals" as a substring. -/
def dealscustomS : HubSpotSchema :=
  { id := "2-5", name := "dealscustom",
    labels := { singular := "Deal Custom", plural := "Deal Customs" },
    metaType := "PORTAL_SPECIFIC", objectTypeId := some "2-5",
    fullyQualifiedName := some "p123_dealscustom" }

/-- A schema whose internal name is the empty string but whose labels
are populated. -/
def emptyNameS : HubSpotSchema :=
  { id := "2-7", name := "",
    labels := { singular := "car", plural := "cars" },
    metaType := "STANDARD", objectTypeId := some "0-9", fullyQualifiedName := none }

/-- One association definition as the gateway would return it. -/
def assocDef1 : AssociationDefinition :=
  { fromObjectType := "contacts", toObjectType := "companies",
    associationCategory := "HUBSPOT_DEFINED", associationTypeId := 1,
    name := some "Primary" }

/-- Gateway for the gating witness: only `contacts` exists. -/
def gwGatingW : Gateway :=
  { schemasResponse := .ok [contactsS],
    probeResponse := fun _ => .status 404,
    assocResponse := fun _ _ => .ok [assocDef1] }

/-- Run of the gating witness: B misses the directory and probes 404. -/
def gatingRun : VerifyRun :=
  buildVerifyRun gwGatingW "contacts" "ghost" (some contactsS) none true false
    VerifiedVia.schemas VerifiedVia.objects none
    (some { existsFlag := false, verifiedVia := VerifiedVia.objects, error := none })

/-- Gateway for the resolution witness: `contacts` in the directory,
every probe answers 200. -/
def gwResolutionW : Gateway :=
  { schemasResponse := .ok [contactsS],
    probeResponse := fun _ => .status 200,
    assocResponse := fun _ _ => .ok [] }

/-- Run of the resolution witness: A via the directory, B via a 200 probe. -/
def resolutionRun : VerifyRun :=
  buildVerifyRun gwResolutionW "contacts" "ghost" (some contactsS) none true true
    VerifiedVia.schemas VerifiedVia.objects none
    (some { existsFlag := true, verifiedVia := VerifiedVia.objects, error := none })

/-- Gateway whose directory holds only the empty-named schema. -/
def gwEmptyName : Gateway :=
  { schemasResponse := .ok [emptyNameS],
    probeResponse := fun _ => .status 404,
    assocResponse := fun _ _ => .ok [] }

/-- Gateway whose association query succeeds with zero definitions. -/
def gwAssocEmpty : Gateway :=
  { schemasResponse := .ok [contactsS, companiesS],
    probeResponse := fun _ => .status 404,
    assocResponse := fun _ _ => .ok [] }

/-- Gateway whose association query throws. -/
def gwAssocErr : Gateway :=
  { schemasResponse := .ok [contactsS, companiesS],
    probeResponse := fun _ => .status 404,
    assocResponse := fun _ _ => .error "HubSpot API Error (500): boom" }

/-- Run under `gwAssocErr` for contacts/companies. -/
def assocErrRun : VerifyRun :=
  buildVerifyRun gwAssocErr "contacts" "companies" (some contactsS) (some companiesS)
    true true VerifiedVia.schemas VerifiedVia.schemas none none

/-- Run under `gwAssocEmpty` for contacts/companies. -/
def assocEmptyRun : VerifyRun :=
  buildVerifyRun gwAssocEmpty "contacts" "companies" (some contactsS) (some companiesS)
    true true VerifiedVia.schemas VerifiedVia.schemas none none

/-- Gateway whose probe always answers 403. -/
def gwProbe403 : Gateway :=
  { schemasResponse := .ok [companiesS],
    probeResponse := fun _ => .status 403,
    assocResponse := fun _ _ => .ok [assocDef1] }

/-- Gateway whose probe always answers 404. -/
def gwProbe404 : Gateway :=
  { schemasResponse := .ok [companiesS],
    probeResponse := fun _ => .status 404,
    assocResponse := fun _ _ => .ok [assocDef1] }

/-- Run under `gwProbe403` for ghost/companies. -/
def probe403Run : VerifyRun :=
  buildVerifyRun gwProbe403 "ghost" "companies" none (some companiesS) false true
    VerifiedVia.objects VerifiedVia.schemas
    (some { existsFlag := false, verifiedVia := VerifiedVia.objects,
            error := some "Insufficient permissions (403)" })
    none

/-- Gateway for the label-warning witness. -/
def gwLabelW : Gateway :=
  { schemasResponse := .ok [dealsS, companiesS],
    probeResponse := fun _ => .status 404,
    assocResponse := fun _ _ => .ok [assocDef1] }

/-- Run under `gwLabelW` for deal/companies: A resolves via the singular
label, so the label-mismatch flag is set. -/
def labelRun : VerifyRun :=
  buildVerifyRun gwLabelW "deal" "companies" (some dealsS) (some companiesS)
    true true VerifiedVia.schemas VerifiedVia.schemas none none

/-- Gateway for the label-warning counterexample. -/
def gwLabelC : Gateway :=
  { schemasResponse := .ok [contactsS, companiesS],
    probeResponse := fun _ => .status 404,
    assocResponse := fun _ _ => .ok [assocDef1] }

/-- Gateway whose directory fetch throws. -/
def gwExitErr : Gateway :=
  { schemasResponse := .error "HubSpot API Error (500): down",
    probeResponse := fun _ => .status 404,
    assocResponse := fun _ _ => .ok [assocDef1] }

/-- Gateway where both objects exist and one association is defined. -/
def gwExitGood : Gateway :=
  { schemasResponse := .ok [contactsS, companiesS],
    probeResponse := fun _ => .status 404,
    assocResponse := fun _ _ => .ok [assocDef1] }

/-- Run under `gwExitGood` for contacts/companies. -/
def exitGoodRun : VerifyRun :=
  buildVerifyRun gwExitGood "contacts" "companies" (some contactsS) (some companiesS)
    true true VerifiedVia.schemas VerifiedVia.schemas none none

/-- Run under `gwAssocEmpty` (both exist, zero definitions), reused for
the exit-code witness. -/
def exitNoAssocRun : VerifyRun :=
  buildVerifyRun gwAssocEmpty "contacts" "companies" (some contactsS) (some companiesS)
    true true VerifiedVia.schemas VerifiedVia.schemas none none

/-- Run under `gwGatingW` with a missing B, reused for the exit-code witness. -/
def exitMissRun : VerifyRun :=
  buildVerifyRun gwGatingW "contacts" "ghost" (some contactsS) none true false
    VerifiedVia.schemas VerifiedVia.objects none
    (some { existsFlag := false, verifiedVia := VerifiedVia.objects, error := none })

/-- Gateway with the `deals` schema carrying matching labels. -/
def gwVerdict1 : Gateway :=
  { schemasResponse := .ok [dealsS, companiesS],
    probeResponse := fun _ => .status 404,
    assocResponse := fun _ _ => .ok [assocDef1] }

/-- Gateway identical to `gwVerdict1` except for the labels of `deals`. -/
def gwVerdict2 : Gateway :=
  { schemasResponse := .ok [dealsXS, companiesS],
    probeResponse := fun _ => .status 404,
    assocResponse := fun _ _ => .ok [assocDef1] }

/-- Run under `gwVerdict1` for deal/companies. -/
def verdict1Run : VerifyRun :=
  buildVerifyRun gwVerdict1 "deal" "companies" (some dealsS) (some companiesS)
    true true VerifiedVia.schemas VerifiedVia.schemas none none

/-- Gateway with an empty directory whose probe always answers 200. -/
def gwProbe200 : Gateway :=
  { schemasResponse := .ok [],
    probeResponse := fun _ => .status 200,
    assocResponse := fun _ _ => .ok [assocDef1] }

/-- Run under `gwProbe200`: both objects resolve via the probe. -/
def probe200Run : VerifyRun :=
  buildVerifyRun gwProbe200 "cats" "dogs" none none true true
    VerifiedVia.objects VerifiedVia.objects
    (some { existsFlag := true, verifiedVia := VerifiedVia.objects, error := none })
    (some { existsFlag := true, verifiedVia := VerifiedVia.objects, error := none })

/-- Inversion for `resolveObject`: a successful resolution either came
from the directory (schema found, no probe) or from the probe
(directory miss, probe answered). -/
theorem resolveObject_ok_cases (gw : Gateway) (schemas : List HubSpotSchema)
    (input : String) (schema : Option HubSpotSchema) (ex : Bool)
    (src : VerifiedVia) (pr : Option ObjectExistsResult)
    (h : resolveObject gw schemas input = .ok (schema, ex, src, pr)) :
    (∃ s, findSchemaByNameOrLabel schemas input = some s ∧
      schema = some s ∧ ex = true ∧ src = VerifiedVia.schemas ∧ pr = none) ∨
    (findSchemaByNameOrLabel schemas input = none ∧ schema = none ∧
      src = VerifiedVia.objects ∧
      ∃ p, objectExists (gw.probeResponse input) = .ok p ∧
        ex = p.existsFlag ∧ pr = some p) := by
  unfold resolveObject at h
  cases hf : findSchemaByNameOrLabel schemas input with
  | some s =>
    rw [hf] at h
    simp only [Except.ok.injEq, Prod.mk.injEq] at h
    exact Or.inl ⟨s, rfl, h.1.symm, h.2.1.symm, h.2.2.1.symm, h.2.2.2.symm⟩
  | none =>
    rw [hf] at h
    cases ho : objectExists (gw.probeResponse input) with
    | error m => rw [ho] at h; exact absurd h (by simp)
    | ok p =>
      rw [ho] at h
      simp only [Except.ok.injEq, Prod.mk.injEq] at h
      exact Or.inr ⟨rfl, h.1.symm, h.2.2.1.symm, p, rfl, h.2.1.symm, h.2.2.2.symm⟩

/-- Inversion for `verifyAssociationsCommand`: a completed run is the
pure tail applied to a directory and two successful resolutions. -/
theorem verifyRun_ok_cases (gw : Gateway) (objectA objectB : String) (r : VerifyRun)
    (h : verifyAssociationsCommand gw objectA objectB = .ok r) :
    ∃ schemas schemaA exA srcA prA schemaB exB srcB prB,
      gw.schemasResponse = .ok schemas ∧
      resolveObject gw schemas objectA = .ok (schemaA, exA, srcA, prA) ∧
      resolveObject gw schemas objectB = .ok (schemaB, exB, srcB, prB) ∧
      r = buildVerifyRun gw objectA objectB schemaA schemaB exA exB srcA srcB prA prB := by
  unfold verifyAssociationsCommand at h
  split at h
  · exact absurd h (by simp)
  · rename_i schemas hs
    split at h
    · exact absurd h (by simp)
    · rename_i tA schemaA exA srcA prA hA
      split at h
      · exact absurd h (by simp)
      · rename_i tB schemaB exB srcB prB hB
        simp only [Except.ok.injEq] at h
        exact ⟨schemas, schemaA, exA, srcA, prA, schemaB, exB, srcB, prB,
          hs, hA, hB, h.symm⟩

/-- C10: in every completed verification verdict, an object whose
resolution source is the objects probe has `isPortalScoped = false`:
the portal-scope classification is computed only from a directory
schema, never for probe-resolved identifiers. -/
theorem probe_resolved_not_portal_scoped (gw : Gateway) (objectA objectB : String)
    (r : VerifyRun) (h : verifyAssociationsCommand gw objectA objectB = .ok r) :
    (r.output.objectA.verifiedVia = VerifiedVia.objects →
      r.output.objectA.isPortalScoped = false) ∧
    (r.output.objectB.verifiedVia = VerifiedVia.objects →
      r.output.objectB.isPortalScoped = false) := by
  obtain ⟨schemas, schemaA, exA, srcA, prA, schemaB, exB, srcB, prB, hs, hA, hB, hr⟩ :=
    verifyRun_ok_cases gw objectA objectB r h
  subst hr
  constructor
  · intro hvia
    rcases resolveObject_ok_cases gw schemas objectA schemaA exA srcA prA hA with
      ⟨s, hf, hsch, hex, hsrc, hpr⟩ | ⟨hf, hsch, hsrc, p, hp, hex, hpr⟩
    · subst hsch hsrc
      simp [buildVerifyRun] at hvia
    · subst hsch
      simp [buildVerifyRun]
  · intro hvia
    rcases resolveObject_ok_cases gw schemas objectB schemaB exB srcB prB hB with
      ⟨s, hf, hsch, hex, hsrc, hpr⟩ | ⟨hf, hsch, hsrc, p, hp, hex, hpr⟩
    · subst hsch hsrc
      simp [buildVerifyRun] at hvia
    · subst hsch
      simp [buildVerifyRun]

/-- C10 witness: with an empty directory and a probe answering 200, both
objects are probe-resolved and neither is flagged portal-scoped. -/
theorem probe_resolved_not_portal_scoped_witness :
    verifyAssociationsCommand gwProbe200 "cats" "dogs" = .ok probe200Run ∧
    probe200Run.output.objectA.verifiedVia = VerifiedVia.objects ∧
    probe200Run.output.objectA.isPortalScoped = false ∧
    probe200Run.output.objectB.isPortalScoped = false :=
  ⟨rfl, rfl,
    (probe_resolved_not_portal_scoped gwProbe200 "cats" "dogs" probe200Run rfl).1 rfl,
    (probe_resolved_not_portal_scoped gwProbe200 "cats" "dogs" probe200Run rfl).2 rfl⟩

/-- C1: whenever either object of a completed run failed existence
resolution, the association-types query is never invoked and the
verdict carries association defined = false, an empty definitions
list, and no recommended API path. -/
theorem gating_blocks_association_query (gw : Gateway) (objectA objectB : String)
    (r : VerifyRun) (h : verifyAssociationsCommand gw objectA objectB = .ok r)
    (hmiss : r.output.objectA.existsFlag = false ∨ r.output.objectB.existsFlag = false) :
    r.assocQueried = false ∧ r.output.association.defined = false ∧
    r.output.association.types = [] ∧ r.output.recommendedApiPath = none := by
  obtain ⟨schemas, schemaA, exA, srcA, prA, schemaB, exB, srcB, prB, hs, hA, hB, hr⟩ :=
    verifyRun_ok_cases gw objectA objectB r h
  subst hr
  rcases hmiss with hm | hm
  · have hx : exA = false := by simpa [buildVerifyRun] using hm
    subst hx
    simp [buildVerifyRun]
  · have hx : exB = false := by simpa [buildVerifyRun] using hm
    subst hx
    simp [buildVerifyRun]

/-- C1 witness: `ghost` misses the directory and probes 404, so the
association query is skipped and the verdict is terminal. -/
theorem gating_blocks_association_query_witness :
    verifyAssociationsCommand gwGatingW "contacts" "ghost" = .ok gatingRun ∧
    gatingRun.output.objectB.existsFlag = false ∧
    (gatingRun.assocQueried = false ∧ gatingRun.output.association.defined = false ∧
     gatingRun.output.association.types = [] ∧ gatingRun.output.recommendedApiPath = none) :=
  ⟨rfl, rfl,
    gating_blocks_association_query gwGatingW "contacts" "ghost" gatingRun rfl
      (Or.inr rfl)⟩


/-- C8: the exit code is 0 on success, 1 when both objects exist but no
association is defined, 2 when either object does not exist, and 3 when
the run aborts with a gateway error; a missing object takes precedence
over a missing association. -/
theorem exit_code_mapping (gw : Gateway) (objectA objectB : String) :
    EXIT_CODES.SUCCESS = 0 ∧ EXIT_CODES.ASSOCIATION_INVALID = 1 ∧
    EXIT_CODES.OBJECT_NOT_FOUND = 2 ∧ EXIT_CODES.API_ERROR = 3 ∧
    (∀ msg, verifyAssociationsCommand gw objectA objectB = .error msg →
      exitCodeOf (verifyAssociationsCommand gw objectA objectB) = EXIT_CODES.API_ERROR) ∧
    (∀ r, verifyAssociationsCommand gw objectA objectB = .ok r →
      ((r.output.objectA.existsFlag = false ∨ r.output.objectB.existsFlag = false) →
        r.exitCode = EXIT_CODES.OBJECT_NOT_FOUND) ∧
      (r.output.objectA.existsFlag = true → r.output.objectB.existsFlag = true →
        r.output.association.defined = false →
        r.exitCode = EXIT_CODES.ASSOCIATION_INVALID) ∧
      (r.output.objectA.existsFlag = true → r.output.objectB.existsFlag = true →
        r.output.association.defined = true →
        r.exitCode = EXIT_CODES.SUCCESS)) := by
  refine ⟨rfl, rfl, rfl, rfl, ?_, ?_⟩
  · intro msg hmsg
    rw [hmsg]
    rfl
  · intro r hok
    obtain ⟨schemas, schemaA, exA, srcA, prA, schemaB, exB, srcB, prB, hs, hA, hB, hr⟩ :=
      verifyRun_ok_cases gw objectA objectB r hok
    subst hr
    refine ⟨?_, ?_, ?_⟩
    · intro hm
      rcases hm with hm | hm
      · have hx : exA = false := by simpa [buildVerifyRun] using hm
        subst hx
        simp [buildVerifyRun]
      · have hx : exB = false := by simpa [buildVerifyRun] using hm
        subst hx
        simp [buildVerifyRun]
    · intro h1 h2 h3
      have hxA : exA = true := by simpa [buildVerifyRun] using h1
      have hxB : exB = true := by simpa [buildVerifyRun] using h2
      subst hxA hxB
      simp [buildVerifyRun] at h3 ⊢
      intro hv hn
      simp [h3 hv] at hn
    · intro h1 h2 h3
      have hxA : exA = true := by simpa [buildVerifyRun] using h1
      have hxB : exB = true := by simpa [buildVerifyRun] using h2
      subst hxA hxB
      simp [buildVerifyRun] at h3 ⊢
      simp [h3.1, h3.2]

/-- C8 witness: the four terminal outcomes realized on concrete
gateways, with the claimed exit codes. -/
theorem exit_code_mapping_witness :
    exitCodeOf (verifyAssociationsCommand gwExitErr "contacts" "companies") =
      EXIT_CODES.API_ERROR ∧
    exitMissRun.exitCode = EXIT_CODES.OBJECT_NOT_FOUND ∧
    exitNoAssocRun.exitCode = EXIT_CODES.ASSOCIATION_INVALID ∧
    exitGoodRun.exitCode = EXIT_CODES.SUCCESS :=
  ⟨(exit_code_mapping gwExitErr "contacts" "companies").2.2.2.2.1
      "HubSpot API Error (500): down" rfl,
   ((exit_code_mapping gwGatingW "contacts" "ghost").2.2.2.2.2 exitMissRun rfl).1
      (Or.inr rfl),
   ((exit_code_mapping gwAssocEmpty "contacts" "companies").2.2.2.2.2
      exitNoAssocRun rfl).2.1 rfl rfl rfl,
   ((exit_code_mapping gwExitGood "contacts" "companies").2.2.2.2.2
      exitGoodRun rfl).2.2 rfl rfl rfl⟩

/-- Behaviour of one existence resolution, split by whether the
directory lookup hit or missed. -/
theorem resolveObject_spec (gw : Gateway) (schemas : List HubSpotSchema)
    (input : String) (schema : Option HubSpotSchema) (ex : Bool)
    (src : VerifiedVia) (pr : Option ObjectExistsResult)
    (h : resolveObject gw schemas input = .ok (schema, ex, src, pr)) :
    (∀ s, findSchemaByNameOrLabel schemas input = some s →
      schema = some s ∧ pr = none ∧ ex = true ∧ src = VerifiedVia.schemas) ∧
    (findSchemaByNameOrLabel schemas input = none →
      schema = none ∧ pr.isSome = true ∧ src = VerifiedVia.objects ∧
      (gw.probeResponse input = .status 200 → ex = true) ∧
      (gw.probeResponse input = .status 404 → ex = false)) := by
  rcases resolveObject_ok_cases gw schemas input schema ex src pr h with
    ⟨s', hf, hsch, hex, hsrc, hpr⟩ | ⟨hf, hsch, hsrc, p, hp, hex, hpr⟩
  · constructor
    · intro s hfind
      rw [hfind] at hf
      obtain rfl := Option.some.inj hf
      exact ⟨hsch, hpr, hex, hsrc⟩
    · intro hfind
      rw [hfind] at hf
      exact absurd hf (by simp)
  · constructor
    · intro s hfind
      rw [hfind] at hf
      exact absurd hf (by simp)
    · intro hfind
      subst hpr hsch hsrc hex
      refine ⟨rfl, rfl, rfl, ?_, ?_⟩
      · intro h200
        rw [h200] at hp
        have hpv := Except.ok.inj hp
        rw [← hpv]
      · intro h404
        rw [h404] at hp
        have hpv := Except.ok.inj hp
        rw [← hpv]

/-- C2 (amended): existence resolution tries the directory first; a hit
yields exists = true, source `schemas`, no probe, and resolved name
equal to the schema's name when that name is nonempty (the literal
input when it is empty — the source uses `schemaA?.name || objectA`);
on a miss the probe is issued, source is `objects`, HTTP 200 yields
exists = true and HTTP 404 exists = false, the resolved name being the
literal input. -/
theorem existence_resolution (gw : Gateway) (objectA objectB : String)
    (schemas : List HubSpotSchema) (r : VerifyRun)
    (hs : gw.schemasResponse = .ok schemas)
    (h : verifyAssociationsCommand gw objectA objectB = .ok r) :
    (∀ s, findSchemaByNameOrLabel schemas objectA = some s →
      r.probedA = false ∧ r.output.objectA.existsFlag = true ∧
      r.output.objectA.verifiedVia = VerifiedVia.schemas ∧
      r.output.objectA.internalName = (if s.name = "" then objectA else s.name)) ∧
    (findSchemaByNameOrLabel schemas objectA = none →
      r.probedA = true ∧ r.output.objectA.verifiedVia = VerifiedVia.objects ∧
      (gw.probeResponse objectA = .status 200 →
        r.output.objectA.existsFlag = true ∧ r.output.objectA.internalName = objectA) ∧
      (gw.probeResponse objectA = .status 404 →
        r.output.objectA.existsFlag = false ∧ r.output.objectA.internalName = objectA)) ∧
    (∀ s, findSchemaByNameOrLabel schemas objectB = some s →
      r.probedB = false ∧ r.output.objectB.existsFlag = true ∧
      r.output.objectB.verifiedVia = VerifiedVia.schemas ∧
      r.output.objectB.internalName = (if s.name = "" then objectB else s.name)) ∧
    (findSchemaByNameOrLabel schemas objectB = none →
      r.probedB = true ∧ r.output.objectB.verifiedVia = VerifiedVia.objects ∧
      (gw.probeResponse objectB = .status 200 →
        r.output.objectB.existsFlag = true ∧ r.output.objectB.internalName = objectB) ∧
      (gw.probeResponse objectB = .status 404 →
        r.output.objectB.existsFlag = false ∧ r.output.objectB.internalName = objectB)) := by
  obtain ⟨schemas', schemaA, exA, srcA, prA, schemaB, exB, srcB, prB, hs', hA, hB, hr⟩ :=
    verifyRun_ok_cases gw objectA objectB r h
  rw [hs] at hs'
  obtain rfl := Except.ok.inj hs'
  subst hr
  have HA := resolveObject_spec gw schemas objectA schemaA exA srcA prA hA
  have HB := resolveObject_spec gw schemas objectB schemaB exB srcB prB hB
  refine ⟨?_, ?_, ?_, ?_⟩
  · intro s hfind
    obtain ⟨hsch, hpr, hex, hsrc⟩ := HA.1 s hfind
    subst hsch hpr hex hsrc
    exact ⟨rfl, rfl, rfl, by simp [buildVerifyRun]⟩
  · intro hfind
    obtain ⟨hsch, hprs, hsrc, h200, h404⟩ := HA.2 hfind
    subst hsch hsrc
    refine ⟨hprs, rfl, ?_, ?_⟩
    · intro hp200
      exact ⟨h200 hp200, rfl⟩
    · intro hp404
      exact ⟨h404 hp404, rfl⟩
  · intro s hfind
    obtain ⟨hsch, hpr, hex, hsrc⟩ := HB.1 s hfind
    subst hsch hpr hex hsrc
    exact ⟨rfl, rfl, rfl, by simp [buildVerifyRun]⟩
  · intro hfind
    obtain ⟨hsch, hprs, hsrc, h200, h404⟩ := HB.2 hfind
    subst hsch hsrc
    refine ⟨hprs, rfl, ?_, ?_⟩
    · intro hp200
      exact ⟨h200 hp200, rfl⟩
    · intro hp404
      exact ⟨h404 hp404, rfl⟩

/-- C2 counterexample: a schema whose internal name is the empty string
is found via its label, yet the verdict's resolved name is the literal
input, not the schema's internal name, refuting the claim that a
directory hit always resolves to the schema's internal name. -/
theorem existence_resolution_counterexample :
    findSchemaByNameOrLabel [emptyNameS] "car" = some emptyNameS ∧
    emptyNameS.name = "" ∧
    (runOutput (verifyAssociationsCommand gwEmptyName "car" "car")).map
      (fun o => (o.objectA.verifiedVia, o.objectA.internalName)) =
      some (VerifiedVia.schemas, "car") ∧
    decide ("car" = emptyNameS.name) = false :=
  ⟨rfl, rfl, rfl, by decide⟩

/-- C2 witness: `contacts` resolves through the directory without a
probe; `ghost` misses the directory and a 200 probe resolves it to the
literal input. -/
theorem existence_resolution_witness :
    verifyAssociationsCommand gwResolutionW "contacts" "ghost" = .ok resolutionRun ∧
    (resolutionRun.probedA = false ∧ resolutionRun.output.objectA.existsFlag = true ∧
     resolutionRun.output.objectA.verifiedVia = VerifiedVia.schemas ∧
     resolutionRun.output.objectA.internalName =
       (if contactsS.name = "" then "contacts" else contactsS.name)) ∧
    (resolutionRun.probedB = true ∧
     resolutionRun.output.objectB.verifiedVia = VerifiedVia.objects ∧
     resolutionRun.output.objectB.existsFlag = true ∧
     resolutionRun.output.objectB.internalName = "ghost") :=
  ⟨rfl,
   (existence_resolution gwResolutionW "contacts" "ghost" [contactsS] resolutionRun
      rfl rfl).1 contactsS rfl,
   by
     have H := (existence_resolution gwResolutionW "contacts" "ghost" [contactsS]
       resolutionRun rfl rfl).2.2.2 rfl
     exact ⟨H.1, H.2.1, (H.2.2.1 rfl).1, (H.2.2.1 rfl).2⟩⟩

/-- C3 (amended): when both objects exist the association query is
issued and association defined = (query succeeded and returned at
least one definition); a successful empty query leaves the internal
path-verification result error-free, and a failing query records the
error message in that internal result — but the structured verdict
itself carries no error field (see the counterexample). -/
theorem association_semantics (gw : Gateway) (objectA objectB : String) (r : VerifyRun)
    (h : verifyAssociationsCommand gw objectA objectB = .ok r)
    (hA : r.output.objectA.existsFlag = true)
    (hB : r.output.objectB.existsFlag = true) :
    r.assocQueried = true ∧
    (∀ ts, gw.assocResponse r.output.objectA.internalName r.output.objectB.internalName
        = .ok ts →
      r.output.association.defined = decide (0 < ts.length) ∧
      r.associationResult.map (fun pr => (pr.valid, pr.error)) = some (true, none) ∧
      r.output.association.types = ts) ∧
    (∀ msg, gw.assocResponse r.output.objectA.internalName r.output.objectB.internalName
        = .error msg →
      r.output.association.defined = false ∧
      r.associationResult.map (fun pr => (pr.valid, pr.error)) = some (false, some msg) ∧
      r.output.association.types = []) := by
  obtain ⟨schemas, schemaA, exA, srcA, prA, schemaB, exB, srcB, prB, hs, hiA, hiB, hr⟩ :=
    verifyRun_ok_cases gw objectA objectB r h
  subst hr
  have hxA : exA = true := by simpa [buildVerifyRun] using hA
  have hxB : exB = true := by simpa [buildVerifyRun] using hB
  subst hxA hxB
  refine ⟨by simp [buildVerifyRun], ?_, ?_⟩
  · intro ts hok
    simp [buildVerifyRun, verifyAssociationPath] at hok ⊢
    rw [hok]
    simp
  · intro msg herr
    simp [buildVerifyRun, verifyAssociationPath] at herr ⊢
    rw [herr]
    simp

/-- C3 counterexample: a successful zero-definition query and a failing
query produce identical structured verdicts (and identical exit codes),
so the two cases are not distinguishable in the machine-readable
output, refuting the claimed populated error field there. -/
theorem association_error_counterexample :
    gwAssocEmpty.assocResponse "contacts" "companies" = .ok [] ∧
    gwAssocErr.assocResponse "contacts" "companies" =
      .error "HubSpot API Error (500): boom" ∧
    runOutput (verifyAssociationsCommand gwAssocEmpty "contacts" "companies") =
      runOutput (verifyAssociationsCommand gwAssocErr "contacts" "companies") ∧
    (runOutput (verifyAssociationsCommand gwAssocEmpty "contacts" "companies")).isSome
      = true ∧
    exitCodeOf (verifyAssociationsCommand gwAssocEmpty "contacts" "companies") =
      exitCodeOf (verifyAssociationsCommand gwAssocErr "contacts" "companies") :=
  ⟨rfl, rfl, rfl, by decide, rfl⟩

/-- C3 witness: the empty-success and the failing query realized on
concrete gateways, with the amended conclusions. -/
theorem association_semantics_witness :
    (assocEmptyRun.output.association.defined =
       decide (0 < ([] : List AssociationDefinition).length) ∧
     assocEmptyRun.associationResult.map (fun pr => (pr.valid, pr.error)) =
       some (true, none) ∧
     assocEmptyRun.output.association.types = []) ∧
    (assocErrRun.output.association.defined = false ∧
     assocErrRun.associationResult.map (fun pr => (pr.valid, pr.error)) =
       some (false, some "HubSpot API Error (500): boom") ∧
     assocErrRun.output.association.types = []) :=
  ⟨(association_semantics gwAssocEmpty "contacts" "companies" assocEmptyRun
      rfl rfl rfl).2.1 [] rfl,
   (association_semantics gwAssocErr "contacts" "companies" assocErrRun
      rfl rfl rfl).2.2 "HubSpot API Error (500): boom" rfl⟩

/-- C4 (amended): when the directory misses and the probe answers 403,
the probe result carries the distinct annotation
"Insufficient permissions (403)" (unlike a 404, whose result has no
annotation), but the verdict drops it: the per-object verdict reports
only exists = false via the objects source, identical to the 404 case
(see the counterexample). -/
theorem probe_403_annotation (gw : Gateway) (objectA objectB : String)
    (schemas : List HubSpotSchema) (r : VerifyRun)
    (hs : gw.schemasResponse = .ok schemas)
    (hnf : findSchemaByNameOrLabel schemas objectA = none)
    (h403 : gw.probeResponse objectA = .status 403)
    (h : verifyAssociationsCommand gw objectA objectB = .ok r) :
    r.probeResultA = some { existsFlag := false,
                            verifiedVia := VerifiedVia.objects,
                            error := some "Insufficient permissions (403)" } ∧
    r.output.objectA = { input := objectA,
                         internalName := objectA,
                         existsFlag := false,
                         verifiedVia := VerifiedVia.objects,
                         isPortalScoped := false } := by
  obtain ⟨schemas', schemaA, exA, srcA, prA, schemaB, exB, srcB, prB, hs', hiA, hiB, hr⟩ :=
    verifyRun_ok_cases gw objectA objectB r h
  rw [hs] at hs'
  obtain rfl := Except.ok.inj hs'
  subst hr
  rcases resolveObject_ok_cases gw schemas objectA schemaA exA srcA prA hiA with
    ⟨s', hf, hsch, hex, hsrc, hpr⟩ | ⟨hf, hsch, hsrc, p, hp, hex, hpr⟩
  · rw [hnf] at hf
    exact absurd hf (by simp)
  · rw [h403] at hp
    have hpv := Except.ok.inj hp
    subst hsch hsrc hex hpr
    rw [← hpv]
    exact ⟨rfl, rfl⟩

/-- C4 counterexample: a 403 probe and a 404 probe yield identical
structured verdicts, exit codes and warnings, so the claimed distinct
insufficient-permissions annotation does not reach the verdict and 403
is conflated with not-found there. -/
theorem probe_403_counterexample :
    gwProbe403.probeResponse "ghost" = .status 403 ∧
    gwProbe404.probeResponse "ghost" = .status 404 ∧
    runOutput (verifyAssociationsCommand gwProbe403 "ghost" "companies") =
      runOutput (verifyAssociationsCommand gwProbe404 "ghost" "companies") ∧
    (runOutput (verifyAssociationsCommand gwProbe403 "ghost" "companies")).isSome
      = true ∧
    exitCodeOf (verifyAssociationsCommand gwProbe403 "ghost" "companies") =
      exitCodeOf (verifyAssociationsCommand gwProbe404 "ghost" "companies") ∧
    runWarnings (verifyAssociationsCommand gwProbe403 "ghost" "companies") =
      runWarnings (verifyAssociationsCommand gwProbe404 "ghost" "companies") :=
  ⟨rfl, rfl, rfl, by decide, rfl, rfl⟩

/-- C4 witness: the amended conclusion realized on a concrete gateway
whose probe answers 403. -/
theorem probe_403_annotation_witness :
    verifyAssociationsCommand gwProbe403 "ghost" "companies" = .ok probe403Run ∧
    (probe403Run.probeResultA = some { existsFlag := false,
                                       verifiedVia := VerifiedVia.objects,
                                       error := some "Insufficient permissions (403)" } ∧
     probe403Run.output.objectA = { input := "ghost",
                                    internalName := "ghost",
                                    existsFlag := false,
                                    verifiedVia := VerifiedVia.objects,
                                    isPortalScoped := false }) :=
  ⟨rfl, probe_403_annotation gwProbe403 "ghost" "companies" [companiesS] probe403Run
     rfl rfl rfl rfl⟩

/-- C5: the directory lookup equals the specified ordered first-match
algorithm (exact name, then exact label, then substring on name, else
failure), and whenever some schema's lowercased name is exactly
"deals", the input "deals" resolves to a schema whose lowercased name
is "deals" — never to a merely-substring match such as "dealscustom". -/
theorem lookup_precedence (schemas : List HubSpotSchema) (input : String) :
    findSchemaByNameOrLabel schemas input = lookupSpec schemas input ∧
    ((∃ s ∈ schemas, lowerStr s.name = "deals") →
      (findSchemaByNameOrLabel schemas "deals").isSome = true ∧
      ∀ r, findSchemaByNameOrLabel schemas "deals" = some r →
        lowerStr r.name = "deals") := by
  constructor
  · simp only [findSchemaByNameOrLabel, lookupSpec]
    cases h1 : List.find? (fun s => lowerStr s.name == lowerStr input) schemas with
    | some s => simp [h1]
    | none =>
      cases h2 : List.find? (fun s =>
          lowerStr s.labels.singular == lowerStr input ||
          lowerStr s.labels.plural == lowerStr input) schemas with
      | some s => simp [h1, h2]
      | none => simp [h1, h2]
  · intro hex
    have hpred : ∃ s ∈ schemas, (lowerStr s.name == lowerStr "deals") = true := by
      obtain ⟨s, hmem, hname⟩ := hex
      refine ⟨s, hmem, ?_⟩
      rw [hname]
      decide
    have hsome : (List.find? (fun s => lowerStr s.name == lowerStr "deals") schemas).isSome
        = true := List.find?_isSome.mpr hpred
    obtain ⟨r0, hr0⟩ := Option.isSome_iff_exists.mp hsome
    have hfind : findSchemaByNameOrLabel schemas "deals" = some r0 := by
      simp [findSchemaByNameOrLabel, hr0]
    constructor
    · rw [hfind]
      rfl
    · intro r hr
      rw [hfind] at hr
      obtain rfl := Option.some.inj hr
      have hp := List.find?_some hr0
      simp only [beq_iff_eq] at hp
      rw [hp]
      decide

/-- C5 witness: with `dealscustom` listed before `deals`, the input
"deals" still resolves to the schema named `deals`. -/
theorem lookup_precedence_witness :
    findSchemaByNameOrLabel [dealscustomS, dealsS] "Deal Custom" =
      lookupSpec [dealscustomS, dealsS] "Deal Custom" ∧
    (findSchemaByNameOrLabel [dealscustomS, dealsS] "deals").isSome = true ∧
    lowerStr dealsS.name = "deals" :=
  ⟨(lookup_precedence [dealscustomS, dealsS] "Deal Custom").1,
   ((lookup_precedence [dealscustomS, dealsS] "Deal Custom").2 (by decide)).1,
   ((lookup_precedence [dealscustomS, dealsS] "Deal Custom").2 (by decide)).2
     dealsS (by decide)⟩

/-- C6: `isPortalScoped` is pure and equals the specified first-true-wins
decision order — PORTAL_SPECIFIC metaType, then objectTypeId prefix
"2-", then fullyQualifiedName prefix "p", then membership of `name` in
the fixed allow-list, which has exactly 22 entries. -/
theorem portal_scope_classification (s : HubSpotSchema) :
    isPortalScoped s = isPortalScopedSpec s ∧ standardObjects.length = 22 := by
  constructor
  · rcases s with ⟨i, n, l, m, oid, fqn⟩
    cases oid <;> cases fqn <;> rfl
  · rfl

/-- C7 (amended): each side's label-mismatch flag is set exactly when a
directory schema was found, the input differs from its internal name,
and the input equals the lowercased singular label — the source
lowercases only the label, so an input containing an uppercase letter
never matches; and the human-readable warnings are exactly the
label-mismatch warnings for A and for B plus the portal-scope warning,
each independently triggered, emitted only when both objects exist and
the association exists. -/
theorem label_warning_condition (gw : Gateway) (objectA objectB : String)
    (schemas : List HubSpotSchema) (r : VerifyRun)
    (hs : gw.schemasResponse = .ok schemas)
    (h : verifyAssociationsCommand gw objectA objectB = .ok r) :
    r.labelDiffersA = labelDiffersSpec schemas objectA ∧
    r.labelDiffersB = labelDiffersSpec schemas objectB ∧
    r.humanWarnings =
      (if r.output.objectA.existsFlag && r.output.objectB.existsFlag &&
          r.output.association.defined then
        (if r.labelDiffersA then
          [s!"UI label \"{objectA}\" differs from API object name \"{r.output.objectA.internalName}\""]
        else []) ++
        (if r.labelDiffersB then
          [s!"UI label \"{objectB}\" differs from API object name \"{r.output.objectB.internalName}\""]
        else []) ++
        (if r.output.objectA.isPortalScoped || r.output.objectB.isPortalScoped then
          ["Single PUT association endpoint may return 500 in sandbox"]
        else [])
      else []) := by
  obtain ⟨schemas', schemaA, exA, srcA, prA, schemaB, exB, srcB, prB, hs', hiA, hiB, hr⟩ :=
    verifyRun_ok_cases gw objectA objectB r h
  rw [hs] at hs'
  obtain rfl := Except.ok.inj hs'
  subst hr
  refine ⟨?_, ?_, ?_⟩
  · rcases resolveObject_ok_cases gw schemas objectA schemaA exA srcA prA hiA with
      ⟨s, hf, hsch, hex, hsrc, hpr⟩ | ⟨hf, hsch, hsrc, p, hp, hex, hpr⟩ <;>
      subst hsch <;> simp [buildVerifyRun, labelDiffersSpec, hf]
  · rcases resolveObject_ok_cases gw schemas objectB schemaB exB srcB prB hiB with
      ⟨s, hf, hsch, hex, hsrc, hpr⟩ | ⟨hf, hsch, hsrc, p, hp, hex, hpr⟩ <;>
      subst hsch <;> simp [buildVerifyRun, labelDiffersSpec, hf]
  · simp [buildVerifyRun, verifyWarnings]

/-- C7 counterexample: input "Contact" differs from the resolved name
"contacts" and equals the display label "Contact" case-insensitively,
the association exists, yet zero warnings are emitted — the source
compares the raw input against the lowercased label, so the claimed
case-insensitive condition does not trigger the warning. -/
theorem label_warning_counterexample :
    (runOutput (verifyAssociationsCommand gwLabelC "Contact" "companies")).map
      (fun o => (o.objectA.internalName, o.association.defined)) =
      some ("contacts", true) ∧
    decide ("Contact" = "contacts") = false ∧
    lowerStr "Contact" = lowerStr contactsS.labels.singular ∧
    runWarnings (verifyAssociationsCommand gwLabelC "Contact" "companies") = some [] :=
  ⟨rfl, by decide, by decide, rfl⟩

/-- C7 witness: input "deal" (all lowercase) does trigger the
label-mismatch warning for A, and it is the only warning emitted. -/
theorem label_warning_condition_witness :
    verifyAssociationsCommand gwLabelW "deal" "companies" = .ok labelRun ∧
    labelRun.labelDiffersA = labelDiffersSpec [dealsS, companiesS] "deal" ∧
    labelRun.labelDiffersA = true ∧
    labelRun.humanWarnings =
      ["UI label \"deal\" differs from API object name \"deals\""] :=
  ⟨rfl,
   (label_warning_condition gwLabelW "deal" "companies" [dealsS, companiesS] labelRun
      rfl rfl).1,
   by decide, by decide⟩

/-- C9 (amended): the structured verdict carries an explicit
writeOperationsPerformed = false flag, a nullable recommendedApiPath
present exactly when the association is defined, and an overall valid
flag — but it does not expose the synthesized warnings, which appear
only in the human-readable form (see the counterexample). -/
theorem structured_verdict_fields (gw : Gateway) (objectA objectB : String)
    (r : VerifyRun) (h : verifyAssociationsCommand gw objectA objectB = .ok r) :
    r.output.writeOperationsPerformed = false ∧
    r.output.recommendedApiPath =
      (if r.output.association.defined then
        some s!"POST /crm/v4/associations/{r.output.objectA.internalName}/{r.output.objectB.internalName}/batch/create"
      else none) ∧
    r.output.valid = (r.output.objectA.existsFlag && r.output.objectB.existsFlag &&
      r.output.association.defined) := by
  obtain ⟨schemas, schemaA, exA, srcA, prA, schemaB, exB, srcB, prB, hs, hiA, hiB, hr⟩ :=
    verifyRun_ok_cases gw objectA objectB r h
  subst hr
  refine ⟨rfl, ?_, ?_⟩ <;> simp [buildVerifyRun]

/-- C9 counterexample: two gateways differing only in the display label
of one schema produce identical structured verdicts but different
human-readable warnings, so the structured form neither exposes the
warnings nor is information-equivalent to the human-readable form. -/
theorem structured_verdict_counterexample :
    runOutput (verifyAssociationsCommand gwVerdict1 "deal" "companies") =
      runOutput (verifyAssociationsCommand gwVerdict2 "deal" "companies") ∧
    (runOutput (verifyAssociationsCommand gwVerdict1 "deal" "companies")).isSome
      = true ∧
    decide (runWarnings (verifyAssociationsCommand gwVerdict1 "deal" "companies") =
      runWarnings (verifyAssociationsCommand gwVerdict2 "deal" "companies")) = false :=
  ⟨rfl, by decide, by decide⟩

/-- C9 witness: the amended structured-verdict fields realized on a
concrete run whose association exists. -/
theorem structured_verdict_fields_witness :
    verifyAssociationsCommand gwVerdict1 "deal" "companies" = .ok verdict1Run ∧
    (verdict1Run.output.writeOperationsPerformed = false ∧
     verdict1Run.output.recommendedApiPath =
       (if verdict1Run.output.association.defined then
         some s!"POST /crm/v4/associations/{verdict1Run.output.objectA.internalName}/{verdict1Run.output.objectB.internalName}/batch/create"
       else none) ∧
     verdict1Run.output.valid =
       (verdict1Run.output.objectA.existsFlag && verdict1Run.output.objectB.existsFlag &&
        verdict1Run.output.association.defined)) :=
  ⟨rfl, structured_verdict_fields gwVerdict1 "deal" "companies" verdict1Run rfl⟩
